import Mathlib

/-!
Verification of the request-replay tool (`apply_history_db.py`) of the
`django-request-replay` repository.

The embedding translates the pure control flow of the script into Lean:

* `Row` mirrors the projected sqlite row (columns `id`, `label`,
  `request_method`, `request_path`, `request_data_binary`, `response_code`).
  The stored `request_data_binary` bytes are represented by the outcome of
  the external `json.loads` call on them (`LoadsResult`), since the `json`
  module is an external collaborator: either the bytes fail to decode
  (`JSONDecodeError`) or they decode to a JSON value.
* `HistoryDatabaseManager.sanitized_records` becomes
  `sanitized_records`.  The Python second loop iterates over the slice
  `sanitized_records[start_from_id - 1:]`, which is a copy taken before the
  loop appends anything, so the loop appends the (re-filtered) tail of the
  first-pass accumulator.
* The network (`requests.request`) is an oracle `Net`; a
  `requests.RequestException` (connection error or exceeding the fixed
  30-second timeout) is modelled by `NetResult.connectionError` /
  `NetResult.timeout`.
* `input()` in the interactive confirmation loop is modelled by a list of
  answer strings.
-/

/-- A decoded JSON document, the possible results of the external
`json.loads`. -/
inductive JsonValue where
  | null
  | bool (b : Bool)
  | num (n : Int)
  | str (s : String)
  | arr (elems : List JsonValue)
  | obj (fields : List (String × JsonValue))

/-- Result of running the external `json.loads` on the stored
`request_data_binary` bytes: either a `JSONDecodeError` or a JSON value. -/
inductive LoadsResult where
  | decodeError
  | value (v : JsonValue)

/-- One projected row of the history table
(`request_logger_djangorequestshistorymodel`). -/
structure Row where
  id : Nat
  label : String
  request_method : String
  request_path : String
  request_data : LoadsResult
  response_code : Int

/-- Constant `MAX_COLUMN_WIDTH: Final[int] = 50`. -/
def MAX_COLUMN_WIDTH : Nat := 50

/-- Constant `MAX_CELL_LENGTH: Final[int] = 1500`. -/
def MAX_CELL_LENGTH : Nat := 1500

/-- The first `for` loop of `sanitized_records`: scan the rows in store
order and append every row whose `request_path` is not in
`excluded_urls`. -/
def keep_not_excluded (excluded_urls : List String) : List Row → List Row
  | [] => []
  | row :: rows =>
    if row.request_path ∈ excluded_urls then keep_not_excluded excluded_urls rows
    else row :: keep_not_excluded excluded_urls rows

/-- Property `HistoryDatabaseManager.sanitized_records`: first pass filters the rows
by excluded path into the accumulator; the second `for` loop iterates over
the slice `sanitized_records[start_from_id - 1:]` (a copy of the
accumulator taken when the loop starts) and appends every element passing
the same path filter again. -/
def sanitized_records (rows : List Row) (excluded_urls : List String)
    (start_from_id : Nat) : List Row :=
  let first_pass := keep_not_excluded excluded_urls rows
  first_pass ++ keep_not_excluded excluded_urls (first_pass.drop (start_from_id - 1))

/-- Lemma: `keep_not_excluded` is the path filter. -/
lemma keep_not_excluded_eq_filter (excluded_urls : List String) (rows : List Row) :
    keep_not_excluded excluded_urls rows
      = rows.filter (fun row => row.request_path ∉ excluded_urls) := by
  induction rows with
  | nil => rfl
  | cons row rows ih =>
    by_cases h : row.request_path ∈ excluded_urls <;>
      simp [keep_not_excluded, h, ih, List.filter_cons]

/-- Every row kept by the filter has a non-excluded path. -/
lemma mem_keep_not_excluded {excluded_urls : List String} {rows : List Row}
    {row : Row} (h : row ∈ keep_not_excluded excluded_urls rows) :
    row.request_path ∉ excluded_urls := by
  rw [keep_not_excluded_eq_filter] at h
  have := List.of_mem_filter h
  simpa using this

/-- Filtering an already-filtered list changes nothing. -/
lemma keep_not_excluded_of_all_kept {excluded_urls : List String}
    {rows : List Row} (h : ∀ row ∈ rows, row.request_path ∉ excluded_urls) :
    keep_not_excluded excluded_urls rows = rows := by
  rw [keep_not_excluded_eq_filter]
  apply List.filter_eq_self.mpr
  intro row hrow
  simpa using h row hrow

/-- The second pass re-filters a suffix of already filtered rows, so it is
the plain suffix. -/
lemma keep_drop_keep (excluded_urls : List String) (rows : List Row) (m : Nat) :
    keep_not_excluded excluded_urls ((keep_not_excluded excluded_urls rows).drop m)
      = (keep_not_excluded excluded_urls rows).drop m := by
  apply keep_not_excluded_of_all_kept
  intro row hrow
  exact mem_keep_not_excluded (List.mem_of_mem_drop hrow)

/-- C1: with `1 ≤ k ≤ n` surviving records, the legacy sanitizer returns the
full filtered list followed by a re-append of its elements from 1-based
position `k` through `n`, for `n + (n - k + 1)` entries in total. -/
theorem sanitized_records_legacy_count (rows : List Row)
    (excluded_urls : List String) (k : Nat)
    (hk1 : 1 ≤ k) (hkn : k ≤ (keep_not_excluded excluded_urls rows).length) :
    sanitized_records rows excluded_urls k
        = keep_not_excluded excluded_urls rows
            ++ (keep_not_excluded excluded_urls rows).drop (k - 1) ∧
      (sanitized_records rows excluded_urls k).length
        = (keep_not_excluded excluded_urls rows).length
            + ((keep_not_excluded excluded_urls rows).length - k + 1) := by
  constructor
  · simp [sanitized_records, keep_drop_keep]
  · simp only [sanitized_records, keep_drop_keep, List.length_append,
      List.length_drop]
    omega

/-- Witness for C1: 5 filtered records and `start_offset = 3` yield exactly
`5 + 3 = 8` entries. -/
theorem sanitized_records_legacy_count_witness :
    (1 : Nat) ≤ 3 ∧
      3 ≤ (keep_not_excluded []
            ((List.range 5).map (fun i =>
              Row.mk i "" "POST" "/api/x" .decodeError 200))).length ∧
      (sanitized_records
          ((List.range 5).map (fun i =>
            Row.mk i "" "POST" "/api/x" .decodeError 200)) [] 3).length = 8 := by
  refine ⟨by norm_num, by decide, ?_⟩
  have h := sanitized_records_legacy_count
    ((List.range 5).map (fun i => Row.mk i "" "POST" "/api/x" .decodeError 200))
    [] 3 (by norm_num) (by decide)
  rw [h.2]
  decide

/-- C3: no element of the sanitized output, re-appended tail included, has
an excluded `request_path`. -/
theorem sanitized_records_excludes (rows : List Row)
    (excluded_urls : List String) (start_from_id : Nat) (row : Row)
    (h : row ∈ sanitized_records rows excluded_urls start_from_id) :
    row.request_path ∉ excluded_urls := by
  simp only [sanitized_records, List.mem_append] at h
  rcases h with h | h
  · exact mem_keep_not_excluded h
  · exact mem_keep_not_excluded h

/-- Witness for C3: a concrete two-row store with one excluded path. -/
theorem sanitized_records_excludes_witness :
    (Row.mk 1 "" "POST" "/api/keep" .decodeError 200
        ∈ sanitized_records
            [Row.mk 1 "" "POST" "/api/keep" .decodeError 200,
             Row.mk 2 "" "POST" "/api/drop" .decodeError 200]
            ["/api/drop"] 1) ∧
      (Row.mk 1 "" "POST" "/api/keep" .decodeError 200).request_path
        ∉ ["/api/drop"] := by
  have hmem : Row.mk 1 "" "POST" "/api/keep" .decodeError 200
      ∈ sanitized_records
          [Row.mk 1 "" "POST" "/api/keep" .decodeError 200,
           Row.mk 2 "" "POST" "/api/drop" .decodeError 200]
          ["/api/drop"] 1 := by
    simp [sanitized_records, keep_not_excluded]
  exact ⟨hmem,
    sanitized_records_excludes
      [Row.mk 1 "" "POST" "/api/keep" .decodeError 200,
       Row.mk 2 "" "POST" "/api/drop" .decodeError 200]
      ["/api/drop"] 1 (Row.mk 1 "" "POST" "/api/keep" .decodeError 200) hmem⟩

/-- C9: with the default start offset `1` the sanitized sequence is the
filtered list concatenated with itself, so its length is `2 * n`. -/
theorem sanitized_records_default_offset_doubles (rows : List Row)
    (excluded_urls : List String) :
    sanitized_records rows excluded_urls 1
        = keep_not_excluded excluded_urls rows
            ++ keep_not_excluded excluded_urls rows ∧
      (sanitized_records rows excluded_urls 1).length
        = 2 * (keep_not_excluded excluded_urls rows).length := by
  have h : sanitized_records rows excluded_urls 1
      = keep_not_excluded excluded_urls rows
          ++ keep_not_excluded excluded_urls rows := by
    have h0 := keep_drop_keep excluded_urls rows 0
    simp only [List.drop_zero] at h0
    simp [sanitized_records, h0]
  refine ⟨h, ?_⟩
  rw [h, List.length_append]
  omega

/-- C10: when the start offset exceeds the number of surviving records, the
slice is empty and the sanitizer silently returns just the filtered list. -/
theorem sanitized_records_offset_out_of_range (rows : List Row)
    (excluded_urls : List String) (start_from_id : Nat)
    (h : (keep_not_excluded excluded_urls rows).length < start_from_id) :
    sanitized_records rows excluded_urls start_from_id
      = keep_not_excluded excluded_urls rows := by
  have hdrop : (keep_not_excluded excluded_urls rows).drop (start_from_id - 1)
      = [] := by
    apply List.drop_eq_nil_of_le
    omega
  simp [sanitized_records, hdrop, keep_not_excluded]

/-- Witness for C10: two surviving records, start offset `5`. -/
theorem sanitized_records_offset_out_of_range_witness :
    (keep_not_excluded []
        [Row.mk 1 "" "POST" "/api/a" .decodeError 200,
         Row.mk 2 "" "POST" "/api/b" .decodeError 200]).length < 5 ∧
      sanitized_records
          [Row.mk 1 "" "POST" "/api/a" .decodeError 200,
           Row.mk 2 "" "POST" "/api/b" .decodeError 200] [] 5
        = keep_not_excluded []
            [Row.mk 1 "" "POST" "/api/a" .decodeError 200,
             Row.mk 2 "" "POST" "/api/b" .decodeError 200] :=
  ⟨by decide,
    sanitized_records_offset_out_of_range
      [Row.mk 1 "" "POST" "/api/a" .decodeError 200,
       Row.mk 2 "" "POST" "/api/b" .decodeError 200] [] 5 (by decide)⟩

/-- Function `truncate_text(text, max_length)`; cell text is modelled as its list of
characters, since Python `len` and slicing act on characters. -/
def truncate_text (text : List Char) (max_length : Nat) : List Char :=
  if max_length < text.length then text.take (max_length - 3) ++ ['.', '.', '.']
  else text

/-- The presenter state: `max_width` feeds only the column-wrap setting of
the underlying table, `enable_less` selects the pager. -/
structure PrettyTableWrapper where
  max_width : Nat
  enable_less : Bool

/-- One row added by the `records` setter of `PrettyTableWrapper`: the db id
is replaced by the 1-based ordinal, and every following (decoded) cell is
truncated at the fixed `MAX_CELL_LENGTH`.  The wrapper's `max_width` is used
only for column wrapping and is never consulted here. -/
def table_row (_t : PrettyTableWrapper) (ordinal : Nat)
    (cells : List (List Char)) : Nat × List (List Char) :=
  (ordinal, cells.map (fun cell => truncate_text cell MAX_CELL_LENGTH))

/-- C7: a cell longer than 1500 renders as its first 1497 characters plus
three dots (total 1500), a cell of length at most 1500 is unchanged, and
the configured max column width has no effect on the rendered cells. -/
theorem presenter_truncation (t u : PrettyTableWrapper) (ordinal : Nat)
    (cells : List (List Char)) (cell : List Char) :
    table_row t ordinal cells = table_row u ordinal cells ∧
      (MAX_CELL_LENGTH < cell.length →
        truncate_text cell MAX_CELL_LENGTH = cell.take 1497 ++ ['.', '.', '.'] ∧
          (truncate_text cell MAX_CELL_LENGTH).length = 1500) ∧
      (cell.length ≤ MAX_CELL_LENGTH → truncate_text cell MAX_CELL_LENGTH = cell) := by
  refine ⟨rfl, ?_, ?_⟩
  · intro h
    have heq : truncate_text cell MAX_CELL_LENGTH
        = cell.take 1497 ++ ['.', '.', '.'] := by
      simp only [truncate_text, MAX_CELL_LENGTH] at h ⊢
      rw [if_pos h]
    refine ⟨heq, ?_⟩
    rw [heq]
    simp only [List.length_append, List.length_take, List.length_cons,
      List.length_nil]
    simp only [MAX_CELL_LENGTH] at h
    omega
  · intro h
    simp only [truncate_text]
    rw [if_neg (by omega)]

/-- Witness for C7: a 1501-character cell is cut to 1497 characters plus the
ellipsis, a 1-character cell is untouched, under two different widths. -/
theorem presenter_truncation_witness :
    truncate_text (List.replicate 1501 'x') MAX_CELL_LENGTH
        = (List.replicate 1501 'x').take 1497 ++ ['.', '.', '.'] ∧
      (truncate_text (List.replicate 1501 'x') MAX_CELL_LENGTH).length = 1500 ∧
      truncate_text ['x'] MAX_CELL_LENGTH = ['x'] :=
  ⟨((presenter_truncation ⟨MAX_COLUMN_WIDTH, false⟩ ⟨7, true⟩ 1 []
      (List.replicate 1501 'x')).2.1
        (by simp only [List.length_replicate, MAX_CELL_LENGTH]; omega)).1,
   ((presenter_truncation ⟨MAX_COLUMN_WIDTH, false⟩ ⟨7, true⟩ 1 []
      (List.replicate 1501 'x')).2.1
        (by simp only [List.length_replicate, MAX_CELL_LENGTH]; omega)).2,
   (presenter_truncation ⟨MAX_COLUMN_WIDTH, false⟩ ⟨7, true⟩ 1 [] ['x']).2.2
      (by simp [MAX_CELL_LENGTH])⟩

/-- Exceptions that can escape the replayer's pure control flow. -/
inductive PyError where
  | typeError          -- dict() applied to a non-mapping json.loads result
  | requestException   -- requests.RequestException re-raised by __send_request
  | eofError           -- input() reading from an exhausted answer stream

/-- Python `dict(...)` applied to the elements of a JSON array: each element must
itself be a two-element `[key, value]` array with a string key (the other
Python key-value-sequence forms are not produced by `json.loads`). -/
def dict_pairs : List JsonValue → Option (List (String × JsonValue))
  | [] => some []
  | .arr [.str k, v] :: rest => (dict_pairs rest).map (fun ps => (k, v) :: ps)
  | _ => none

/-- Python `dict(...)` applied to a `json.loads` result: a JSON object yields its
fields, an array of `[key, value]` pairs yields those pairs, anything else
raises (`TypeError`/`ValueError`). -/
def py_dict : JsonValue → Option (List (String × JsonValue))
  | .obj fields => some fields
  | .arr elems => dict_pairs elems
  | _ => none

/-- Method `RequestReplayer.parse_request_data`: `dict(json.loads(data))` with only
`json.JSONDecodeError` caught (returning `None`); a decodable payload that
`dict` cannot convert raises out of the method. -/
def parse_request_data (data : LoadsResult) :
    Except PyError (Option (List (String × JsonValue))) :=
  match data with
  | .decodeError => .ok none
  | .value v =>
    match py_dict v with
    | some d => .ok (some d)
    | none => .error .typeError

/-- Outcome of one attempt of `requests.request`. -/
inductive NetResult where
  | response (status_code : Int)
  | connectionError
  | timeout

/-- The network oracle: the outcome of `requests.request` for a given url,
method, JSON body and timeout. -/
def Net : Type :=
  String → String → Option (List (String × JsonValue)) → Nat → NetResult

/-- Method `RequestReplayer.__send_request`: issue the request with the fixed
timeout of 30; a `requests.RequestException` (connection error or timeout)
is printed and then re-raised. -/
def send_request (net : Net) (url method : String)
    (json_body : Option (List (String × JsonValue))) : Except PyError Int :=
  match net url method json_body 30 with
  | .response status_code => .ok status_code
  | .connectionError => .error .requestException
  | .timeout => .error .requestException

/-- Method `RequestReplayer.handle_response`: HTTP status in `[200, 299]` is a
success, anything else a failure; the printed SUCCEEDED/FAILED line is
elided.  Returns the success flag and the raw status code. -/
def handle_response (status_code : Int) : Bool × Int :=
  if 200 ≤ status_code ∧ status_code ≤ 299 then (true, status_code)
  else (false, status_code)

/-- The request a record's processing actually issued, if any. -/
structure SentRequest where
  url : String
  method : String
  json_body : Option (List (String × JsonValue))

/-- Result of `RequestReplayer.process_record` on one record: the body
parse raised, the send raised (after the request was attempted), or a
response was received and classified. -/
inductive RecordResult where
  | parseRaised (e : PyError)
  | sendRaised (sent : SentRequest) (e : PyError)
  | handled (sent : SentRequest) (outcome : Bool × Int)

/-- Method `RequestReplayer.process_record`: build the target url from the base
url and the stored path, parse the stored body, send, and classify the
response; exceptions from parsing or sending propagate to the caller. -/
def process_record (net : Net) (base_url : String) (record : Row) :
    RecordResult :=
  let url := base_url ++ record.request_path
  match parse_request_data record.request_data with
  | .error e => .parseRaised e
  | .ok request_data =>
    match send_request net url record.request_method request_data with
    | .error e => .sendRaised ⟨url, record.request_method, request_data⟩ e
    | .ok status_code =>
      .handled ⟨url, record.request_method, request_data⟩
        (handle_response status_code)

/-- The request issued while processing a record, if one was issued. -/
def sent_request : RecordResult → Option SentRequest
  | .parseRaised _ => none
  | .sendRaised sent _ => some sent
  | .handled sent _ => some sent

/-- How a replay run ends: all records consumed, `sys.exit(code)`, or an
uncaught exception. -/
inductive RunEnd where
  | completed
  | exited (code : Nat)
  | raised (e : PyError)

/-- The non-interactive side of `replay_requests` /
`__replay_none_interactive`: process each record in turn; on success
continue; on failure continue only when `skip_request_errors` is set and
otherwise `exit_with_message` (code 1); an uncaught exception ends the run
at once.  Returns the per-record results in order plus how the run ends. -/
def replay_none_interactive (skip_request_errors : Bool) (net : Net)
    (base_url : String) : List Row → List RecordResult × RunEnd
  | [] => ([], .completed)
  | record :: rest =>
    match process_record net base_url record with
    | .parseRaised e => ([.parseRaised e], .raised e)
    | .sendRaised sent e => ([.sendRaised sent e], .raised e)
    | .handled sent (true, status_code) =>
      let next := replay_none_interactive skip_request_errors net base_url rest
      (.handled sent (true, status_code) :: next.1, next.2)
    | .handled sent (false, status_code) =>
      if skip_request_errors then
        let next := replay_none_interactive skip_request_errors net base_url rest
        (.handled sent (false, status_code) :: next.1, next.2)
      else ([.handled sent (false, status_code)], .exited 1)

/-- C2: in non-interactive mode a `[200, 299]` status is classified success
and the run continues; any other status is classified failure, after which
the run continues exactly when `skip_request_errors` is set and otherwise
exits with code 1, processing no further record. -/
theorem none_interactive_outcome_policy (skip_request_errors : Bool)
    (net : Net) (base_url : String) (record : Row) (rest : List Row)
    (body : Option (List (String × JsonValue))) (sent : SentRequest)
    (status_code : Int) :
    (parse_request_data record.request_data = .ok body →
      net (base_url ++ record.request_path) record.request_method body 30
          = .response status_code →
      process_record net base_url record
        = .handled ⟨base_url ++ record.request_path, record.request_method, body⟩
            (handle_response status_code)) ∧
    (200 ≤ status_code ∧ status_code ≤ 299 →
      handle_response status_code = (true, status_code)) ∧
    (status_code < 200 ∨ 299 < status_code →
      handle_response status_code = (false, status_code)) ∧
    (process_record net base_url record = .handled sent (true, status_code) →
      replay_none_interactive skip_request_errors net base_url (record :: rest)
        = (.handled sent (true, status_code)
              :: (replay_none_interactive skip_request_errors net base_url rest).1,
           (replay_none_interactive skip_request_errors net base_url rest).2)) ∧
    (process_record net base_url record = .handled sent (false, status_code) →
      skip_request_errors = true →
      replay_none_interactive skip_request_errors net base_url (record :: rest)
        = (.handled sent (false, status_code)
              :: (replay_none_interactive skip_request_errors net base_url rest).1,
           (replay_none_interactive skip_request_errors net base_url rest).2)) ∧
    (process_record net base_url record = .handled sent (false, status_code) →
      skip_request_errors = false →
      replay_none_interactive skip_request_errors net base_url (record :: rest)
        = ([.handled sent (false, status_code)], .exited 1)) := by
  refine ⟨?_, ?_, ?_, ?_, ?_, ?_⟩
  · intro hparse hnet
    simp [process_record, hparse, send_request, hnet]
  · intro h
    simp [handle_response, h]
  · intro h
    have : ¬(200 ≤ status_code ∧ status_code ≤ 299) := by omega
    simp [handle_response, this]
  · intro h
    simp [replay_none_interactive, h]
  · intro h hskip
    subst hskip
    simp [replay_none_interactive, h]
  · intro h hskip
    subst hskip
    simp [replay_none_interactive, h]

/-- Witness for C2: a two-record store replayed against a responder that
returns 204 for the first path and 500 for the second; with the skip flag
the failure is passed over, without it the run exits with code 1. -/
theorem none_interactive_outcome_policy_witness :
    handle_response 204 = (true, 204) ∧
      handle_response 500 = (false, 500) ∧
      replay_none_interactive true
          (fun url _ _ _ => if url = "http://h/api/ok" then .response 204
            else .response 500)
          "http://h"
          [Row.mk 1 "" "POST" "/api/ok" .decodeError 200,
           Row.mk 2 "" "POST" "/api/bad" .decodeError 200]
        = ([.handled ⟨"http://h/api/ok", "POST", none⟩ (true, 204),
            .handled ⟨"http://h/api/bad", "POST", none⟩ (false, 500)],
           .completed) ∧
      replay_none_interactive false
          (fun url _ _ _ => if url = "http://h/api/ok" then .response 204
            else .response 500)
          "http://h"
          [Row.mk 2 "" "POST" "/api/bad" .decodeError 200,
           Row.mk 1 "" "POST" "/api/ok" .decodeError 200]
        = ([.handled ⟨"http://h/api/bad", "POST", none⟩ (false, 500)],
           .exited 1) := by
  refine ⟨?_, ?_, ?_, ?_⟩
  · exact (none_interactive_outcome_policy false
      (fun _ _ _ _ => .response 204) "http://h"
      (Row.mk 1 "" "POST" "/api/ok" .decodeError 200) []
      none ⟨"", "", none⟩ 204).2.1 (by omega)
  · exact (none_interactive_outcome_policy false
      (fun _ _ _ _ => .response 500) "http://h"
      (Row.mk 1 "" "POST" "/api/ok" .decodeError 200) []
      none ⟨"", "", none⟩ 500).2.2.1 (by omega)
  · have hstep := (none_interactive_outcome_policy true
      (fun url _ _ _ => if url = "http://h/api/ok" then .response 204
        else .response 500)
      "http://h"
      (Row.mk 1 "" "POST" "/api/ok" .decodeError 200)
      [Row.mk 2 "" "POST" "/api/bad" .decodeError 200]
      none ⟨"http://h/api/ok", "POST", none⟩ 204).2.2.2.1 (by rfl)
    have hstep2 := (none_interactive_outcome_policy true
      (fun url _ _ _ => if url = "http://h/api/ok" then .response 204
        else .response 500)
      "http://h"
      (Row.mk 2 "" "POST" "/api/bad" .decodeError 200) []
      none ⟨"http://h/api/bad", "POST", none⟩ 500).2.2.2.2.1 (by rfl) rfl
    rw [hstep, hstep2]
    rfl
  · exact (none_interactive_outcome_policy false
      (fun url _ _ _ => if url = "http://h/api/ok" then .response 204
        else .response 500)
      "http://h"
      (Row.mk 2 "" "POST" "/api/bad" .decodeError 200)
      [Row.mk 1 "" "POST" "/api/ok" .decodeError 200]
      none ⟨"http://h/api/bad", "POST", none⟩ 500).2.2.2.2.2 (by rfl) rfl

/-- C5: a record whose stored body fails to decode as JSON is replayed with
no body: `parse_request_data` returns `None` instead of raising, no
exception leaves the parse, and the request is still attempted (with a
`null` body) at the record's url and method. -/
theorem parse_failure_sends_no_body (net : Net) (base_url : String)
    (record : Row) (h : record.request_data = .decodeError) :
    parse_request_data record.request_data = .ok none ∧
      (∀ e, process_record net base_url record ≠ .parseRaised e) ∧
      sent_request (process_record net base_url record)
        = some ⟨base_url ++ record.request_path, record.request_method, none⟩ := by
  refine ⟨by rw [h]; rfl, ?_, ?_⟩
  · intro e
    simp only [process_record, h, parse_request_data]
    cases hsend : send_request net (base_url ++ record.request_path)
        record.request_method none <;> simp [hsend]
  · simp only [process_record, h, parse_request_data]
    cases hsend : send_request net (base_url ++ record.request_path)
        record.request_method none <;> simp [hsend, sent_request]

/-- Witness for C5: a record with an undecodable body is replayed against a
live responder; the attempted request carries a `null` body. -/
theorem parse_failure_sends_no_body_witness :
    (Row.mk 7 "" "PUT" "/api/x" .decodeError 200).request_data
        = .decodeError ∧
      sent_request
          (process_record (fun _ _ _ _ => .response 200) "http://h"
            (Row.mk 7 "" "PUT" "/api/x" .decodeError 200))
        = some ⟨"http://h/api/x", "PUT", none⟩ :=
  ⟨rfl,
    (parse_failure_sends_no_body (fun _ _ _ _ => .response 200) "http://h"
      (Row.mk 7 "" "PUT" "/api/x" .decodeError 200) rfl).2.2⟩

/-- Constant `DEFAULT_INTERACTIVE_ASK_YES_NO_ANSWER: Final[str] = "no"`. -/
def DEFAULT_INTERACTIVE_ASK_YES_NO_ANSWER : String := "no"

/-- Python `str.lower()` applied to a command-line answer, character by
character. -/
def py_lower (s : String) : String := String.mk (s.data.map Char.toLower)

/-- The `valid_mapping` dict of `CommandLineInterfaceUtils.ask_yes_no`. -/
def valid_mapping : String → Option Bool
  | "yes" => some true
  | "y" => some true
  | "no" => some false
  | "n" => some false
  | _ => none

/-- The three ways the confirmation loop can leave `input()`:
`sys.exit(0)` on `q`, an answer, or `EOFError` on exhausted input. -/
inductive AskResult where
  | quit
  | answer (b : Bool) (rest : List String)
  | eof

/-- Method `CommandLineInterfaceUtils.ask_yes_no` over a stream of typed answers:
the answer is lowercased; `q` exits the process with code 0; the empty
answer returns the mapping of the default `"no"`; an answer outside the
mapping prints a usage hint and asks again (no retry bound); otherwise the
mapped boolean is returned along with the unconsumed stream. -/
def ask_yes_no : List String → AskResult
  | [] => .eof
  | choice :: rest =>
    let user_choice := py_lower choice
    if user_choice = "q" then .quit
    else if user_choice = "" then
      .answer ((valid_mapping DEFAULT_INTERACTIVE_ASK_YES_NO_ANSWER).getD false)
        rest
    else
      match valid_mapping user_choice with
      | some b => .answer b rest
      | none => ask_yes_no rest

/-- Method `__replay_interactive` iterated by `replay_requests`: confirm each
record; a yes answer executes it and the loop continues whatever the
response outcome was, a no answer skips it, `q` exits the process with
code 0, exhausted input raises `EOFError`, and exceptions raised while
processing propagate. -/
def replay_interactive (net : Net) (base_url : String) :
    List Row → List String → List RecordResult × RunEnd
  | [], _ => ([], .completed)
  | record :: rest, answers =>
    match ask_yes_no answers with
    | .eof => ([], .raised .eofError)
    | .quit => ([], .exited 0)
    | .answer false remaining => replay_interactive net base_url rest remaining
    | .answer true remaining =>
      match process_record net base_url record with
      | .parseRaised e => ([.parseRaised e], .raised e)
      | .sendRaised sent e => ([.sendRaised sent e], .raised e)
      | .handled sent outcome =>
        let next := replay_interactive net base_url rest remaining
        (.handled sent outcome :: next.1, next.2)

/-- Method `RequestReplayer.replay_requests`: every record goes through the
interactive confirmation loop or the non-interactive policy, depending on
the configured flag. -/
def replay_requests (interactive skip_request_errors : Bool) (net : Net)
    (base_url : String) (answers : List String) (records : List Row) :
    List RecordResult × RunEnd :=
  if interactive then replay_interactive net base_url records answers
  else replay_none_interactive skip_request_errors net base_url records

/-- C8: case-insensitively, `yes`/`y` answers execute the record,
`no`/`n`/empty skip it (empty defaulting to no), `q` exits the whole
process with code 0, and any other answer re-prompts with no retry
bound. -/
theorem ask_yes_no_policy (choice : String) (rest : List String) (net : Net)
    (base_url : String) (record : Row) (records : List Row)
    (answers remaining : List String) (sent : SentRequest)
    (outcome : Bool × Int) :
    (py_lower choice = "yes" ∨ py_lower choice = "y" →
      ask_yes_no (choice :: rest) = .answer true rest) ∧
    (py_lower choice = "no" ∨ py_lower choice = "n" ∨ py_lower choice = "" →
      ask_yes_no (choice :: rest) = .answer false rest) ∧
    (py_lower choice = "q" → ask_yes_no (choice :: rest) = .quit) ∧
    (py_lower choice ≠ "q" → py_lower choice ≠ "" →
      valid_mapping (py_lower choice) = none →
      ask_yes_no (choice :: rest) = ask_yes_no rest) ∧
    (ask_yes_no answers = .answer true remaining →
      process_record net base_url record = .handled sent outcome →
      replay_interactive net base_url (record :: records) answers
        = (.handled sent outcome
              :: (replay_interactive net base_url records remaining).1,
           (replay_interactive net base_url records remaining).2)) ∧
    (ask_yes_no answers = .answer false remaining →
      replay_interactive net base_url (record :: records) answers
        = replay_interactive net base_url records remaining) ∧
    (ask_yes_no answers = .quit →
      replay_interactive net base_url (record :: records) answers
        = ([], .exited 0)) := by
  refine ⟨?_, ?_, ?_, ?_, ?_, ?_, ?_⟩
  · intro h
    rcases h with h | h <;> simp [ask_yes_no, h, valid_mapping]
  · intro h
    rcases h with h | h | h <;>
      simp [ask_yes_no, h, valid_mapping,
        DEFAULT_INTERACTIVE_ASK_YES_NO_ANSWER]
  · intro h
    simp [ask_yes_no, h]
  · intro h1 h2 h3
    simp [ask_yes_no, h1, h2, h3]
  · intro hask hproc
    simp [replay_interactive, hask, hproc]
  · intro hask
    simp [replay_interactive, hask]
  · intro hask
    simp [replay_interactive, hask]

/-- Witness for C8: concrete answers of every kind, and a two-record
interactive session answered `n` then `q` that issues nothing and exits
with code 0. -/
theorem ask_yes_no_policy_witness :
    ask_yes_no ["YES"] = .answer true [] ∧
      ask_yes_no ["No"] = .answer false [] ∧
      ask_yes_no [""] = .answer false [] ∧
      ask_yes_no ["Q"] = .quit ∧
      ask_yes_no ["maybe", "y"] = ask_yes_no ["y"] ∧
      replay_interactive (fun _ _ _ _ => .response 200) "http://h"
          [Row.mk 1 "" "POST" "/api/a" .decodeError 200]
          ["y"]
        = (.handled ⟨"http://h/api/a", "POST", none⟩ (true, 200)
              :: (replay_interactive (fun _ _ _ _ => .response 200) "http://h"
                    [] []).1,
           (replay_interactive (fun _ _ _ _ => .response 200) "http://h"
              [] []).2) ∧
      replay_interactive (fun _ _ _ _ => .response 200) "http://h"
          [Row.mk 1 "" "POST" "/api/a" .decodeError 200,
           Row.mk 2 "" "POST" "/api/b" .decodeError 200]
          ["n", "q"]
        = ([], .exited 0) := by
  refine ⟨?_, ?_, ?_, ?_, ?_, ?_, ?_⟩
  · exact (ask_yes_no_policy "YES" [] (fun _ _ _ _ => .response 200) "" 
      (Row.mk 1 "" "" "" .decodeError 0) [] [] [] ⟨"", "", none⟩
      (true, 0)).1 (Or.inl rfl)
  · exact (ask_yes_no_policy "No" [] (fun _ _ _ _ => .response 200) ""
      (Row.mk 1 "" "" "" .decodeError 0) [] [] [] ⟨"", "", none⟩
      (true, 0)).2.1 (Or.inl rfl)
  · exact (ask_yes_no_policy "" [] (fun _ _ _ _ => .response 200) ""
      (Row.mk 1 "" "" "" .decodeError 0) [] [] [] ⟨"", "", none⟩
      (true, 0)).2.1 (Or.inr (Or.inr rfl))
  · exact (ask_yes_no_policy "Q" [] (fun _ _ _ _ => .response 200) ""
      (Row.mk 1 "" "" "" .decodeError 0) [] [] [] ⟨"", "", none⟩
      (true, 0)).2.2.1 rfl
  · exact (ask_yes_no_policy "maybe" ["y"] (fun _ _ _ _ => .response 200) ""
      (Row.mk 1 "" "" "" .decodeError 0) [] [] [] ⟨"", "", none⟩
      (true, 0)).2.2.2.1 (by decide) (by decide) rfl
  · exact (ask_yes_no_policy "y" [] (fun _ _ _ _ => .response 200) "http://h"
      (Row.mk 1 "" "POST" "/api/a" .decodeError 200) [] ["y"] []
      ⟨"http://h/api/a", "POST", none⟩ (true, 200)).2.2.2.2.1 rfl rfl
  · have hskip := (ask_yes_no_policy "n" ["q"]
      (fun _ _ _ _ => .response 200) "http://h"
      (Row.mk 1 "" "POST" "/api/a" .decodeError 200)
      [Row.mk 2 "" "POST" "/api/b" .decodeError 200] ["n", "q"] ["q"]
      ⟨"", "", none⟩ (true, 0)).2.2.2.2.2.1 rfl
    have hquit := (ask_yes_no_policy "q" []
      (fun _ _ _ _ => .response 200) "http://h"
      (Row.mk 2 "" "POST" "/api/b" .decodeError 200) [] ["q"] []
      ⟨"", "", none⟩ (true, 0)).2.2.2.2.2.2 rfl
    rw [hskip, hquit]

/-- C6: a `requests.RequestException` — connection failure or exceeding the
fixed timeout of 30 — is re-raised by `__send_request` and ends the run at
the failing record in both modes, whatever the skip-errors flag; the
request is attempted exactly once and no later record is processed. -/
theorem network_failure_is_fatal (skip_request_errors : Bool) (net : Net)
    (base_url url method : String)
    (json_body : Option (List (String × JsonValue))) (record : Row)
    (rest : List Row) (answers remaining : List String) (sent : SentRequest)
    (e : PyError) :
    (net url method json_body 30 = .connectionError →
      send_request net url method json_body = .error .requestException) ∧
    (net url method json_body 30 = .timeout →
      send_request net url method json_body = .error .requestException) ∧
    (process_record net base_url record = .sendRaised sent e →
      replay_none_interactive skip_request_errors net base_url (record :: rest)
        = ([.sendRaised sent e], .raised e)) ∧
    (ask_yes_no answers = .answer true remaining →
      process_record net base_url record = .sendRaised sent e →
      replay_interactive net base_url (record :: rest) answers
        = ([.sendRaised sent e], .raised e)) := by
  refine ⟨?_, ?_, ?_, ?_⟩
  · intro h
    simp [send_request, h]
  · intro h
    simp [send_request, h]
  · intro h
    simp [replay_none_interactive, h]
  · intro hask hproc
    simp [replay_interactive, hask, hproc]

/-- Witness for C6: a connection-refusing network ends a two-record run at
the first record, even with the skip flag set and also in interactive
mode. -/
theorem network_failure_is_fatal_witness :
    send_request (fun _ _ _ _ => .connectionError) "http://h/api/a" "POST"
        none = .error .requestException ∧
      replay_none_interactive true (fun _ _ _ _ => .connectionError)
          "http://h"
          [Row.mk 1 "" "POST" "/api/a" .decodeError 200,
           Row.mk 2 "" "POST" "/api/b" .decodeError 200]
        = ([.sendRaised ⟨"http://h/api/a", "POST", none⟩ .requestException],
           .raised .requestException) ∧
      replay_interactive (fun _ _ _ _ => .connectionError) "http://h"
          [Row.mk 1 "" "POST" "/api/a" .decodeError 200,
           Row.mk 2 "" "POST" "/api/b" .decodeError 200]
          ["y", "y"]
        = ([.sendRaised ⟨"http://h/api/a", "POST", none⟩ .requestException],
           .raised .requestException) :=
  ⟨(network_failure_is_fatal true (fun _ _ _ _ => .connectionError)
      "http://h" "http://h/api/a" "POST" none
      (Row.mk 1 "" "POST" "/api/a" .decodeError 200) [] [] []
      ⟨"", "", none⟩ .requestException).1 rfl,
   (network_failure_is_fatal true (fun _ _ _ _ => .connectionError)
      "http://h" "http://h/api/a" "POST" none
      (Row.mk 1 "" "POST" "/api/a" .decodeError 200)
      [Row.mk 2 "" "POST" "/api/b" .decodeError 200] [] []
      ⟨"http://h/api/a", "POST", none⟩ .requestException).2.2.1 rfl,
   (network_failure_is_fatal true (fun _ _ _ _ => .connectionError)
      "http://h" "http://h/api/a" "POST" none
      (Row.mk 1 "" "POST" "/api/a" .decodeError 200)
      [Row.mk 2 "" "POST" "/api/b" .decodeError 200] ["y", "y"] ["y"]
      ⟨"http://h/api/a", "POST", none⟩ .requestException).2.2.2 rfl rfl⟩

/-- The abort text used both by `get_to_be_processed_records` (with the
resolved db path) and by `validate` (with the configured db file); ASCII
code 39 is the single quote placed around the path. -/
def no_processable_records_message (db : String) : String :=
  "There are no processable records on db " ++ (Char.ofNat 39).toString
    ++ db ++ (Char.ofNat 39).toString

/-- Method `RequestReplayer.validate` together with the
`get_to_be_processed_records` it calls: `exit_with_message` (code 1) when
the store holds no rows at all, again when no sanitized records remain,
and otherwise proceed (`none`).  `db_path` is the resolved store path used
by the first check, `db_file` the configured string used by the second. -/
def validate_replay (rows : List Row) (excluded_urls : List String)
    (start_from_id : Nat) (db_path db_file : String) : Option String :=
  if rows.isEmpty then some (no_processable_records_message db_path)
  else if (sanitized_records rows excluded_urls start_from_id).isEmpty then
    some (no_processable_records_message db_file)
  else none

/-- The `__main__` sequence after configuration parsing: validate (exiting
with code 1 on an empty selection before anything is replayed), then
either the dry-run preview (exit 0) or the replay itself. -/
def main_run (rows : List Row) (excluded_urls : List String)
    (start_from_id : Nat) (db_path db_file : String)
    (dry_run interactive skip_request_errors : Bool) (net : Net)
    (base_url : String) (answers : List String) :
    List RecordResult × RunEnd :=
  match validate_replay rows excluded_urls start_from_id db_path db_file with
  | some _ => ([], .exited 1)
  | none =>
    if dry_run then ([], .exited 0)
    else replay_requests interactive skip_request_errors net base_url answers
          (sanitized_records rows excluded_urls start_from_id)

/-- Counterexample to C4: with the same db string, the message printed for
a store with no rows at all is literally identical to the message printed
when rows exist but every one is filtered out — the two cases are not
distinguished. -/
theorem empty_abort_message_not_distinguishing :
    validate_replay [] ["/api/x"] 1 "history.sqlite.3" "history.sqlite.3"
        = validate_replay [Row.mk 1 "" "POST" "/api/x" .decodeError 200]
            ["/api/x"] 1 "history.sqlite.3" "history.sqlite.3" ∧
      validate_replay [] ["/api/x"] 1 "history.sqlite.3" "history.sqlite.3"
        = some (no_processable_records_message "history.sqlite.3") := by
  exact ⟨rfl, rfl⟩

/-- C4 (amended): whenever the sanitized selection is empty the run aborts
with exit code 1 before issuing any request, printing "There are no
processable records on db ..."; the same text is used whether the store is
empty (interpolating the resolved path) or records exist but none survive
filtering (interpolating the configured file name), so the two cases are
not distinguished beyond that interpolation. -/
theorem empty_selection_aborts (rows : List Row)
    (excluded_urls : List String) (start_from_id : Nat)
    (db_path db_file : String) (dry_run interactive skip_request_errors : Bool)
    (net : Net) (base_url : String) (answers : List String)
    (h : sanitized_records rows excluded_urls start_from_id = []) :
    main_run rows excluded_urls start_from_id db_path db_file dry_run
        interactive skip_request_errors net base_url answers
      = ([], .exited 1) ∧
      validate_replay rows excluded_urls start_from_id db_path db_file
        = some (no_processable_records_message
            (if rows.isEmpty then db_path else db_file)) := by
  have hval : validate_replay rows excluded_urls start_from_id db_path db_file
      = some (no_processable_records_message
          (if rows.isEmpty then db_path else db_file)) := by
    by_cases hrows : rows.isEmpty
    · simp [validate_replay, hrows]
    · simp [validate_replay, hrows, h]
  refine ⟨?_, hval⟩
  simp [main_run, hval]

/-- Witness for C4 (amended): one stored record whose path is excluded. -/
theorem empty_selection_aborts_witness :
    sanitized_records [Row.mk 1 "" "POST" "/api/x" .decodeError 200]
        ["/api/x"] 1 = [] ∧
      main_run [Row.mk 1 "" "POST" "/api/x" .decodeError 200] ["/api/x"] 1
          "/tmp/h.db" "h.db" false false false
          (fun _ _ _ _ => .response 200) "http://h" []
        = ([], .exited 1) :=
  ⟨rfl,
    (empty_selection_aborts [Row.mk 1 "" "POST" "/api/x" .decodeError 200]
      ["/api/x"] 1 "/tmp/h.db" "h.db" false false false
      (fun _ _ _ _ => .response 200) "http://h" [] rfl).1⟩
